import Mathlib

/-!
Verification of the database seeding route of this repository
(the seed route handler file): a shallow embedding of the four
per-table seed functions, of the GET handler with its configuration
check, SSL heuristic, transaction and error classification, and a
relational model of the four tables it populates.

External pieces that are not part of the handler file (the fixture
rows imported from the placeholder data module, the bcrypt library,
and the transaction rollback of the postgres client) are modelled
from the specification and marked as such in their doc comments.
-/

namespace Seed

/-- JavaScript disjunction a or b on strings: the empty string is falsy,
so the result is b when a is empty and a otherwise. -/
def jsOr (a b : String) : String := if a = "" then b else a

/-- Boolean test that the second list is a prefix of the first. -/
def subAt : List Char → List Char → Bool
  | _, [] => true
  | [], _ :: _ => false
  | a :: as, b :: bs => a == b && subAt as bs

/-- Boolean test that the second list occurs as a contiguous block of the
first, at any position. -/
def subSomewhere : List Char → List Char → Bool
  | [], sub => sub.isEmpty
  | a :: as, sub => subAt (a :: as) sub || subSomewhere as sub

/-- JavaScript substring test on strings, as used by the handler on the
connection string and on error messages. -/
def jsIncludes (s sub : String) : Bool := subSomewhere s.data sub.data

/-- Shallow model of a JavaScript error value as the transaction handler
observes it: the code and errno fields (empty string standing for an
absent or falsy field), the message field, the result of serializing the
error (with a flag telling whether serialization itself succeeded), and
the result of converting the error to a string. -/
structure DbError where
  code : String
  errno : String
  message : String
  stringifyOk : Bool
  stringified : String
  asString : String
deriving Repr, DecidableEq

/-- Error code extraction of the handler: the code field, else the errno
field, else the empty string. -/
def errorCode (e : DbError) : String := jsOr e.code (jsOr e.errno "")

/-- Error message extraction of the handler: the message field, else the
string form, else a fixed fallback text. -/
def errorMessage (e : DbError) : String :=
  jsOr e.message (jsOr e.asString "Database error occurred")

/-- Serialized form of the error: the serialization result when
serialization succeeds, else the string form. -/
def errorString (e : DbError) : String :=
  if e.stringifyOk then e.stringified else e.asString

/-- First classification rule of the transaction handler: connection
refused, matched by code or by substring of the message or of the
serialized form. -/
def connRefusedMatch (e : DbError) : Bool :=
  errorCode e == "ECONNREFUSED" || jsIncludes (errorMessage e) "ECONNREFUSED" ||
    jsIncludes (errorString e) "ECONNREFUSED"

/-- Second classification rule: SSL failure, matched by message substring,
by code 28000, or by substring of the serialized form. -/
def sslMatch (e : DbError) : Bool :=
  jsIncludes (errorMessage e) "SSL" || errorCode e == "28000" ||
    jsIncludes (errorString e) "SSL"

/-- Third classification rule: authentication failure, matched by code
28P01 or by the message mentioning password or authentication. -/
def authMatch (e : DbError) : Bool :=
  errorCode e == "28P01" || jsIncludes (errorMessage e) "password" ||
    jsIncludes (errorMessage e) "authentication"

/-- Response message of the missing configuration branch. -/
def missingEnvMessage : String :=
  "POSTGRES_URL environment variable is not set. Please set it in your .env file."

/-- Response message of the connection construction failure branch. -/
def connectFailedMessage : String :=
  "Failed to create database connection. Please check your POSTGRES_URL."

/-- Response message of the connection refused branch. -/
def connRefusedMessage : String :=
  "Unable to connect to the database. Please make sure your database is running and the POSTGRES_URL is correct. Common issues: 1) Database server is not running, 2) Wrong host/port in POSTGRES_URL, 3) Firewall blocking the connection."

/-- Response message of the SSL error branch. -/
def sslErrorMessage : String :=
  "SSL connection error. If you are using a local database, try removing SSL requirements from your connection string."

/-- Response message of the authentication error branch. -/
def authErrorMessage : String :=
  "Database authentication failed. Please check your POSTGRES_URL credentials."

/-- JSON body of a response of the handler: either the success body with
its message field, or an error body with its message and code fields and
an optional details field (present only where the source adds one). -/
inductive Body where
  | ok (message : String)
  | err (message : String) (code : String) (details : Option String)
deriving Repr, DecidableEq

/-- HTTP response of the handler: status and JSON body. -/
structure HttpResponse where
  status : Nat
  body : Body
deriving Repr, DecidableEq

/-- Error classification of the transaction handler, applied in source
order: connection refused, then SSL, then authentication, then the
fallthrough that passes the underlying message and code through with the
code defaulting to DATABASE_ERROR. -/
def classifyTxnError (e : DbError) : Body :=
  if connRefusedMatch e then Body.err connRefusedMessage "ECONNREFUSED" none
  else if sslMatch e then Body.err sslErrorMessage "SSL_ERROR" none
  else if authMatch e then Body.err authErrorMessage "AUTH_ERROR" none
  else Body.err (errorMessage e) (jsOr (errorCode e) "DATABASE_ERROR") none

/-- SSL heuristic of the handler: a pure substring test of the connection
string against the two explicit SSL markers and the three provider
hostname markers. -/
def useSSL (url : String) : Bool :=
  jsIncludes url "sslmode=require" || jsIncludes url "ssl=true" ||
    jsIncludes url "amazonaws.com" || jsIncludes url "neon.tech" ||
    jsIncludes url "vercel-storage.com"

/-- Connection option passed to the database client: ssl require when the
heuristic fires, no explicit SSL request otherwise. -/
def sslOption (url : String) : Option String :=
  if useSSL url then some "require" else none

/-- Outcome of the external world for one invocation of the handler: the
value of the POSTGRES_URL variable (none when unset), whether constructing
the connection throws and with what error, whether the transaction fails
and with what error, and whether closing the connection throws and with
what error. -/
structure Env where
  postgresUrl : Option String
  connectError : Option DbError
  txnError : Option DbError
  endError : Option DbError
deriving Repr

/-- Observable effect trace of one invocation: the connection attempt
(none when no attempt is made, otherwise the SSL option it was opened
with), the number of times the connection close routine is invoked, and
whether the seeding transaction was begun. -/
structure Trace where
  connectAttempt : Option (Option String)
  endCalls : Nat
  txnBegun : Bool
deriving Repr, DecidableEq

/-- The GET handler of the seed route: configuration check, connection
construction with the SSL heuristic, the seeding transaction, connection
close on every path after construction (wrapped in a swallowing catch
only on the transaction failure path), error classification, and the
outer catch that converts any escaping error into a structured response. -/
def GET (env : Env) : HttpResponse × Trace :=
  match env.postgresUrl with
  | none =>
      (⟨500, Body.err missingEnvMessage "MISSING_ENV_VAR" none⟩, ⟨none, 0, false⟩)
  | some url =>
      if url = "" then
        (⟨500, Body.err missingEnvMessage "MISSING_ENV_VAR" none⟩, ⟨none, 0, false⟩)
      else
        match env.connectError with
        | some ce =>
            (⟨500, Body.err connectFailedMessage (jsOr ce.code "CONNECTION_ERROR")
                (some ce.message)⟩,
             ⟨some (sslOption url), 0, false⟩)
        | none =>
            match env.txnError with
            | some de =>
                (⟨500, classifyTxnError de⟩, ⟨some (sslOption url), 1, true⟩)
            | none =>
                match env.endError with
                | some ee =>
                    (⟨500, Body.err (jsOr ee.message "An unexpected error occurred")
                        (jsOr ee.code "UNKNOWN_ERROR") none⟩,
                     ⟨some (sslOption url), 1, true⟩)
                | none =>
                    (⟨200, Body.ok "Database seeded successfully"⟩,
                     ⟨some (sslOption url), 1, true⟩)

/-- Modelled from the spec: a fixture user row of the placeholder data
module (not part of the handler file): identifier, name, unique email,
plaintext password. -/
structure UserFixture where
  id : String
  name : String
  email : String
  password : String
deriving Repr, DecidableEq

/-- Modelled from the spec: a fixture customer row of the placeholder
data module: identifier, name, email, image reference. -/
structure CustomerFixture where
  id : String
  name : String
  email : String
  image_url : String
deriving Repr, DecidableEq

/-- Modelled from the spec: a fixture invoice row of the placeholder data
module: customer reference, amount in minor units, status, date. The
stored identifier is generated by the database, not part of the fixture. -/
structure InvoiceFixture where
  customer_id : String
  amount : Int
  status : String
  date : String
deriving Repr, DecidableEq

/-- Modelled from the spec: a fixture revenue row of the placeholder data
module: unique month code and revenue amount. -/
structure RevenueFixture where
  month : String
  revenue : Int
deriving Repr, DecidableEq

/-- A stored row of the users table. -/
structure UserRow where
  id : String
  name : String
  email : String
  password : String
deriving Repr, DecidableEq

/-- A stored row of the customers table. -/
structure CustomerRow where
  id : String
  name : String
  email : String
  image_url : String
deriving Repr, DecidableEq

/-- A stored row of the invoices table; the identifier is the generated
primary key. -/
structure InvoiceRow where
  id : Nat
  customer_id : String
  amount : Int
  status : String
  date : String
deriving Repr, DecidableEq

/-- A stored row of the revenue table. -/
structure RevenueRow where
  month : String
  revenue : Int
deriving Repr, DecidableEq

/-- Relational state of the database: the existence flag of the UUID
extension and of each of the four tables (create-if-absent is a no-op on
rows), the rows of each table, and the counter modelling the generator of
fresh UUID values (a fresh value is one never drawn before). -/
structure Db where
  uuidExt : Bool
  usersTable : Bool
  customersTable : Bool
  invoicesTable : Bool
  revenueTable : Bool
  users : List UserRow
  customers : List CustomerRow
  invoices : List InvoiceRow
  revenue : List RevenueRow
  nextUuid : Nat
deriving Repr, DecidableEq

/-- The empty database: no extension, no tables, no rows. -/
def emptyDb : Db := ⟨false, false, false, false, false, [], [], [], [], 0⟩

/-- A database level error raised by an insert: violation of a uniqueness
constraint that is not the conflict target of the insert. -/
inductive SqlError where
  | uniqueViolation (table : String) (column : String)
deriving Repr, DecidableEq

/-- Modelled from the spec: the hash function of the external bcrypt
library, a salted hash with an explicit cost factor. The model keeps the
scheme tag, the cost and the salt in the output so that the output always
differs from the plaintext and verifies against it. -/
def bcryptHash (password : String) (cost salt : Nat) : String :=
  "$2b$" ++ toString cost ++ "$" ++ toString salt ++ "$" ++ password

/-- Modelled from the spec: the verification function of the external
bcrypt library: a hash verifies against a plaintext when it carries the
scheme tag and embeds that plaintext. -/
def bcryptCompare (password hash : String) : Bool :=
  subAt hash.data ("$2b$".data) &&
    subAt hash.data.reverse (('$' :: password.data).reverse)

/-- Insert of one users row: skipped when the conflict target id is
already present; raises a uniqueness violation when a distinct row with
the same email exists (email is unique but is not the conflict target);
appends the row otherwise. -/
def insertUser (db : Db) (row : UserRow) : Except SqlError Db :=
  if db.users.any (fun r => r.id == row.id) then Except.ok db
  else if db.users.any (fun r => r.email == row.email) then
    Except.error (SqlError.uniqueViolation "users" "email")
  else Except.ok { db with users := db.users ++ [row] }

/-- The insert loop of seedUsers: each fixture password is hashed with
cost factor 10 and a per-call salt before the insert. The concurrent
per-row inserts of the source are embedded as their sequential
linearization. -/
def seedUsersGo (salts : Nat → Nat) : Nat → List UserFixture → Db → Except SqlError Db
  | _, [], db => Except.ok db
  | i, u :: rest, db =>
      (insertUser db ⟨u.id, u.name, u.email, bcryptHash u.password 10 (salts i)⟩).bind
        (fun db2 => seedUsersGo salts (i + 1) rest db2)

/-- seedUsers: ensure the UUID extension and the users table exist, then
insert every fixture user with a hashed password, skipping rows whose id
already exists. -/
def seedUsers (salts : Nat → Nat) (us : List UserFixture) (db : Db) :
    Except SqlError Db :=
  seedUsersGo salts 0 us { db with uuidExt := true, usersTable := true }

/-- Insert of one customers row: skipped when the conflict target id is
already present, appended verbatim otherwise. -/
def insertCustomer (db : Db) (c : CustomerFixture) : Db :=
  if db.customers.any (fun r => r.id == c.id) then db
  else { db with customers := db.customers ++ [⟨c.id, c.name, c.email, c.image_url⟩] }

/-- seedCustomers: ensure the UUID extension and the customers table
exist, then insert every fixture customer verbatim, skipping ids that
already exist. -/
def seedCustomers (cs : List CustomerFixture) (db : Db) : Db :=
  cs.foldl insertCustomer { db with uuidExt := true, customersTable := true }

/-- Insert of one invoices row: the insert does not supply an id, so the
database draws a fresh generated id; the conflict clause on id skips the
row only when that generated id is already present. -/
def insertInvoice (db : Db) (v : InvoiceFixture) : Db :=
  if db.invoices.any (fun r => r.id == db.nextUuid) then
    { db with nextUuid := db.nextUuid + 1 }
  else
    { db with
        invoices := db.invoices ++
          [⟨db.nextUuid, v.customer_id, v.amount, v.status, v.date⟩],
        nextUuid := db.nextUuid + 1 }

/-- seedInvoices: ensure the UUID extension and the invoices table exist,
then insert every fixture invoice with a generated id. -/
def seedInvoices (vs : List InvoiceFixture) (db : Db) : Db :=
  vs.foldl insertInvoice { db with uuidExt := true, invoicesTable := true }

/-- Insert of one revenue row: skipped when the conflict target month is
already present, appended verbatim otherwise. -/
def insertRevenue (db : Db) (v : RevenueFixture) : Db :=
  if db.revenue.any (fun r => r.month == v.month) then db
  else { db with revenue := db.revenue ++ [⟨v.month, v.revenue⟩] }

/-- seedRevenue: ensure the revenue table exists, then insert every
fixture revenue row verbatim, skipping months that already exist. -/
def seedRevenue (vs : List RevenueFixture) (db : Db) : Db :=
  vs.foldl insertRevenue { db with revenueTable := true }

/-- Modelled from the spec: the fixture data set of the placeholder data
module, one list per table. -/
structure Fixtures where
  users : List UserFixture
  customers : List CustomerFixture
  invoices : List InvoiceFixture
  revenue : List RevenueFixture
deriving Repr, DecidableEq

/-- The transaction body of the handler: the four per-table seed
operations, in the order they are listed in the call to the transaction.
They write disjoint tables and are awaited as a group in the source; the
embedding runs them in list order, and only the users seed can raise
(the only uniqueness constraint not covered by a conflict clause is the
email column of users). -/
def seedAll (salts : Nat → Nat) (fx : Fixtures) (db : Db) : Except SqlError Db :=
  (seedUsers salts fx.users db).bind (fun db1 =>
    Except.ok (seedRevenue fx.revenue
      (seedInvoices fx.invoices (seedCustomers fx.customers db1))))

/-- Modelled from the spec: the transaction combinator of the postgres
client library: a failing transaction body is rolled back by the database
layer, leaving the state unchanged and reporting the error. -/
def beginTxn (db : Db) (f : Db → Except SqlError Db) : Db × Option SqlError :=
  match f db with
  | Except.ok db2 => (db2, none)
  | Except.error e => (db, some e)

/-- The seeding transaction as the handler issues it: the four seed
operations inside one transaction. -/
def seedTransaction (salts : Nat → Nat) (fx : Fixtures) (db : Db) :
    Db × Option SqlError :=
  beginTxn db (seedAll salts fx)

theorem except_bind_ok {ε α β : Type} (x : Except ε α) (f : α → Except ε β) (b : β) :
    x.bind f = Except.ok b ↔ ∃ a, x = Except.ok a ∧ f a = Except.ok b := by
  cases x with
  | error e => simp [Except.bind]
  | ok a => simp [Except.bind]

theorem string_data_append (s t : String) : (s ++ t).data = s.data ++ t.data := by
  cases s
  cases t
  rfl

theorem subAt_nil (l : List Char) : subAt l [] = true := by
  cases l <;> rfl

theorem subAt_self_append (p l : List Char) : subAt (p ++ l) p = true := by
  induction p with
  | nil => rw [List.nil_append]; exact subAt_nil l
  | cons a as ih => simp [subAt, ih]

theorem bcryptHash_ne (pw : String) (c s : Nat) : bcryptHash pw c s ≠ pw := by
  intro h
  have h2 := congrArg String.length h
  have e1 : ("$2b$" : String).length = 4 := rfl
  have e2 : ("$" : String).length = 1 := rfl
  simp [bcryptHash, String.length_append, e1, e2] at h2

theorem bcryptCompare_hash (pw : String) (c s : Nat) :
    bcryptCompare pw (bcryptHash pw c s) = true := by
  have e3 : ("$" : String).data = ['$'] := rfl
  have hdata : (bcryptHash pw c s).data =
      ("$2b$".data ++ ((toString c).data ++ (['$'] ++ (toString s).data))) ++
        ('$' :: pw.data) := by
    simp [bcryptHash, string_data_append, e3, List.append_assoc]
  unfold bcryptCompare
  rw [Bool.and_eq_true]
  constructor
  · rw [hdata]
    have e4 : ("$2b$" : String).data = ['$', '2', 'b', '$'] := rfl
    rw [e4, List.append_assoc]
    exact subAt_self_append ['$', '2', 'b', '$'] _
  · rw [hdata, List.reverse_append]
    exact subAt_self_append _ _

theorem classify_shape (e : DbError) : ∃ m c, classifyTxnError e = Body.err m c none := by
  unfold classifyTxnError
  split
  · exact ⟨_, _, rfl⟩
  · split
    · exact ⟨_, _, rfl⟩
    · split
      · exact ⟨_, _, rfl⟩
      · exact ⟨_, _, rfl⟩

theorem insertUser_mem (db : Db) (row : UserRow) (db2 : Db)
    (h : insertUser db row = Except.ok db2) :
    ∀ r ∈ db2.users, r ∈ db.users ∨ r = row := by
  intro r hr
  unfold insertUser at h
  split at h
  · injection h with h2
    subst h2
    exact Or.inl hr
  · split at h
    · exact absurd h (by simp)
    · injection h with h2
      subst h2
      rcases List.mem_append.mp hr with h1 | h1
      · exact Or.inl h1
      · exact Or.inr (List.mem_singleton.mp h1)

theorem seedUsersGo_mem (salts : Nat → Nat) (us : List UserFixture) :
    ∀ (i : Nat) (db db2 : Db), seedUsersGo salts i us db = Except.ok db2 →
      ∀ r ∈ db2.users, r ∈ db.users ∨
        ∃ u ∈ us, ∃ s, r = UserRow.mk u.id u.name u.email (bcryptHash u.password 10 s) := by
  induction us with
  | nil =>
      intro i db db2 h r hr
      simp only [seedUsersGo] at h
      injection h with h2
      subst h2
      exact Or.inl hr
  | cons u rest ih =>
      intro i db db2 h r hr
      simp only [seedUsersGo] at h
      rcases (except_bind_ok _ _ _).mp h with ⟨dbm, hins, hrec⟩
      rcases ih (i + 1) dbm db2 hrec r hr with hold | ⟨u2, hu2, s, hs⟩
      · rcases insertUser_mem db _ dbm hins r hold with h1 | h2
        · exact Or.inl h1
        · exact Or.inr ⟨u, List.mem_cons_self u rest, salts i, h2⟩
      · exact Or.inr ⟨u2, List.mem_cons_of_mem u hu2, s, hs⟩

theorem insertCustomer_mem (db : Db) (c : CustomerFixture) (r : CustomerRow)
    (hr : r ∈ (insertCustomer db c).customers) :
    r ∈ db.customers ∨ r = CustomerRow.mk c.id c.name c.email c.image_url := by
  unfold insertCustomer at hr
  split at hr
  · exact Or.inl hr
  · rcases List.mem_append.mp hr with h1 | h1
    · exact Or.inl h1
    · exact Or.inr (List.mem_singleton.mp h1)

theorem seedCustomersGo_mem (cs : List CustomerFixture) :
    ∀ (db : Db) (r : CustomerRow), r ∈ (cs.foldl insertCustomer db).customers →
      r ∈ db.customers ∨ ∃ c ∈ cs, r = CustomerRow.mk c.id c.name c.email c.image_url := by
  induction cs with
  | nil => intro db r hr; exact Or.inl hr
  | cons c rest ih =>
      intro db r hr
      rw [List.foldl_cons] at hr
      rcases ih (insertCustomer db c) r hr with hold | ⟨c2, hc2, hs⟩
      · rcases insertCustomer_mem db c r hold with h1 | h2
        · exact Or.inl h1
        · exact Or.inr ⟨c, List.mem_cons_self c rest, h2⟩
      · exact Or.inr ⟨c2, List.mem_cons_of_mem c hc2, hs⟩

theorem insertInvoice_mem (db : Db) (v : InvoiceFixture) (r : InvoiceRow)
    (hr : r ∈ (insertInvoice db v).invoices) :
    r ∈ db.invoices ∨
      (r.customer_id = v.customer_id ∧ r.amount = v.amount ∧
        r.status = v.status ∧ r.date = v.date) := by
  unfold insertInvoice at hr
  split at hr
  · exact Or.inl hr
  · rcases List.mem_append.mp hr with h1 | h1
    · exact Or.inl h1
    · have h2 := List.mem_singleton.mp h1
      subst h2
      exact Or.inr ⟨rfl, rfl, rfl, rfl⟩

theorem seedInvoicesGo_mem (vs : List InvoiceFixture) :
    ∀ (db : Db) (r : InvoiceRow), r ∈ (vs.foldl insertInvoice db).invoices →
      r ∈ db.invoices ∨ ∃ v ∈ vs, r.customer_id = v.customer_id ∧ r.amount = v.amount ∧
        r.status = v.status ∧ r.date = v.date := by
  induction vs with
  | nil => intro db r hr; exact Or.inl hr
  | cons v rest ih =>
      intro db r hr
      rw [List.foldl_cons] at hr
      rcases ih (insertInvoice db v) r hr with hold | ⟨v2, hv2, hs⟩
      · rcases insertInvoice_mem db v r hold with h1 | h2
        · exact Or.inl h1
        · exact Or.inr ⟨v, List.mem_cons_self v rest, h2⟩
      · exact Or.inr ⟨v2, List.mem_cons_of_mem v hv2, hs⟩

theorem insertRevenue_mem (db : Db) (v : RevenueFixture) (r : RevenueRow)
    (hr : r ∈ (insertRevenue db v).revenue) :
    r ∈ db.revenue ∨ r = RevenueRow.mk v.month v.revenue := by
  unfold insertRevenue at hr
  split at hr
  · exact Or.inl hr
  · rcases List.mem_append.mp hr with h1 | h1
    · exact Or.inl h1
    · exact Or.inr (List.mem_singleton.mp h1)

theorem seedRevenueGo_mem (vs : List RevenueFixture) :
    ∀ (db : Db) (r : RevenueRow), r ∈ (vs.foldl insertRevenue db).revenue →
      r ∈ db.revenue ∨ ∃ v ∈ vs, r = RevenueRow.mk v.month v.revenue := by
  induction vs with
  | nil => intro db r hr; exact Or.inl hr
  | cons v rest ih =>
      intro db r hr
      rw [List.foldl_cons] at hr
      rcases ih (insertRevenue db v) r hr with hold | ⟨v2, hv2, hs⟩
      · rcases insertRevenue_mem db v r hold with h1 | h2
        · exact Or.inl h1
        · exact Or.inr ⟨v, List.mem_cons_self v rest, h2⟩
      · exact Or.inr ⟨v2, List.mem_cons_of_mem v hv2, hs⟩


/-- Constant salt stream used for concrete runs. -/
def saltsZero : Nat → Nat := fun _ => 0

/-- Concrete demonstration fixture set with one row per table. -/
def fxDemo : Fixtures :=
  ⟨[⟨"u1", "Alice", "alice@example.com", "secret"⟩],
   [⟨"c1", "Acme", "acme@example.com", "img.png"⟩],
   [⟨"c1", 100, "paid", "2024-01-01"⟩],
   [⟨"Jan", 2000⟩]⟩

/-- Claim C1 (code bug): the claim states that running the seed operation
twice produces no duplicate rows in any of the four tables because every
second insert hits an existing conflict key. The code violates this for
invoices: the insert supplies no id, the database draws a fresh generated
id for each row, so the conflict clause on id can never fire and the
second run appends a second invoice row with identical content. This
theorem evaluates two consecutive runs on a one-row-per-table fixture set
from the empty database: users, customers and revenue keep one row, while
invoices ends with two rows of identical content. -/
theorem claim_C1 :
    Except.map
        (fun d => (d.users.length, d.customers.length, d.revenue.length,
          d.invoices.map (fun r => (r.customer_id, r.amount, r.status, r.date))))
        ((seedAll saltsZero fxDemo emptyDb).bind (seedAll saltsZero fxDemo)) =
      Except.ok (1, 1, 1,
        [("c1", 100, "paid", "2024-01-01"), ("c1", 100, "paid", "2024-01-01")]) := by
  rfl

/-- Claim C2: the transaction error classification is applied in a fixed
priority order with first match winning: connection refused before SSL
before authentication; consequently an error matching both the SSL and
the authentication criteria (and not claimed first by the connection
refused rule) is classified SSL_ERROR, not AUTH_ERROR. -/
theorem claim_C2 :
    (∀ e : DbError, connRefusedMatch e = true →
        classifyTxnError e = Body.err connRefusedMessage "ECONNREFUSED" none) ∧
    (∀ e : DbError, connRefusedMatch e = false → sslMatch e = true →
        classifyTxnError e = Body.err sslErrorMessage "SSL_ERROR" none) ∧
    (∀ e : DbError, connRefusedMatch e = false → sslMatch e = false → authMatch e = true →
        classifyTxnError e = Body.err authErrorMessage "AUTH_ERROR" none) ∧
    (∀ e : DbError, sslMatch e = true → authMatch e = true → connRefusedMatch e = false →
        classifyTxnError e = Body.err sslErrorMessage "SSL_ERROR" none) := by
  refine ⟨?_, ?_, ?_, ?_⟩
  · intro e h
    simp [classifyTxnError, h]
  · intro e h1 h2
    simp [classifyTxnError, h1, h2]
  · intro e h1 h2 h3
    simp [classifyTxnError, h1, h2, h3]
  · intro e h2 h3 h1
    simp [classifyTxnError, h1, h2]

/-- An error matching both the SSL and the authentication criteria but
not the connection refused rule. -/
def eSslAuth : DbError := ⟨"", "", "SSL password failure", true, "serialized", "stringo"⟩

/-- Witness for C2: at a concrete error matching both the SSL and the
authentication criteria, the classification is SSL_ERROR. -/
theorem claim_C2_witness :
    classifyTxnError eSslAuth = Body.err sslErrorMessage "SSL_ERROR" none :=
  claim_C2.2.2.2 eSslAuth (by decide) (by decide) (by decide)

/-- Claim C3, amended: every exit of GET is either the 200 success
response with the exact success message, or a 500 error response whose
body carries a message and a code and nothing else, except the connection
construction failure exit, whose 500 body additionally carries a details
field. -/
theorem claim_C3 (env : Env) :
    ((GET env).1.status = 200 ∧ (GET env).1.body = Body.ok "Database seeded successfully") ∨
    ((GET env).1.status = 500 ∧ ∃ m c, (GET env).1.body = Body.err m c none) ∨
    ((GET env).1.status = 500 ∧ env.connectError ≠ none ∧
      ∃ m c d, (GET env).1.body = Body.err m c (some d)) := by
  cases hu : env.postgresUrl with
  | none =>
      exact Or.inr (Or.inl ⟨by simp [GET, hu], missingEnvMessage, "MISSING_ENV_VAR",
        by simp [GET, hu]⟩)
  | some url =>
      by_cases hne : url = ""
      · exact Or.inr (Or.inl ⟨by simp [GET, hu, hne], missingEnvMessage, "MISSING_ENV_VAR",
          by simp [GET, hu, hne]⟩)
      · cases hce : env.connectError with
        | some ce =>
            exact Or.inr (Or.inr ⟨by simp [GET, hu, hne, hce], by simp [hce],
              connectFailedMessage, jsOr ce.code "CONNECTION_ERROR", ce.message,
              by simp [GET, hu, hne, hce]⟩)
        | none =>
            cases hte : env.txnError with
            | some te =>
                obtain ⟨m, c, hmc⟩ := classify_shape te
                exact Or.inr (Or.inl ⟨by simp [GET, hu, hne, hce, hte], m, c,
                  by simp [GET, hu, hne, hce, hte]; exact hmc⟩)
            | none =>
                cases hee : env.endError with
                | some ee =>
                    exact Or.inr (Or.inl ⟨by simp [GET, hu, hne, hce, hte, hee],
                      jsOr ee.message "An unexpected error occurred",
                      jsOr ee.code "UNKNOWN_ERROR",
                      by simp [GET, hu, hne, hce, hte, hee]⟩)
                | none =>
                    exact Or.inl ⟨by simp [GET, hu, hne, hce, hte, hee],
                      by simp [GET, hu, hne, hce, hte, hee]⟩

/-- Error thrown by the construction of the database connection. -/
def eConn : DbError := ⟨"", "", "bad url", true, "serialized", "stringo"⟩

/-- Environment in which constructing the connection throws. -/
def envConnFail : Env := ⟨some "postgresql://localhost/db", some eConn, none, none⟩

/-- Counterexample for C3 as stated: on the connection construction
failure exit the 500 body carries a details field beside message and
code, so it does not have exactly the claimed two-field shape. -/
theorem claim_C3_cex :
    (GET envConnFail).1.status = 500 ∧
    (GET envConnFail).1.body =
      Body.err connectFailedMessage "CONNECTION_ERROR" (some "bad url") := ⟨rfl, rfl⟩

/-- Claim C4, amended: whenever the connection object is created, the
close routine is invoked exactly once before the response on every exit
path; on transaction failure paths a close failure is swallowed and does
not change the response; on the success path a close failure is not
swallowed: the outer handler catches it and the response becomes a 500
whose code defaults to UNKNOWN_ERROR. -/
theorem claim_C4 :
    (∀ (env : Env) (url : String), env.postgresUrl = some url → url ≠ "" →
        env.connectError = none → (GET env).2.endCalls = 1) ∧
    (∀ (env : Env) (url : String) (de : DbError), env.postgresUrl = some url → url ≠ "" →
        env.connectError = none → env.txnError = some de →
        (GET env).1 = (GET { env with endError := none }).1) ∧
    (∀ (env : Env) (url : String) (ee : DbError), env.postgresUrl = some url → url ≠ "" →
        env.connectError = none → env.txnError = none → env.endError = some ee →
        (GET env).1 =
          ⟨500, Body.err (jsOr ee.message "An unexpected error occurred")
            (jsOr ee.code "UNKNOWN_ERROR") none⟩) := by
  refine ⟨?_, ?_, ?_⟩
  · intro env url hu hne hce
    cases hte : env.txnError with
    | some te => simp [GET, hu, hne, hce, hte]
    | none =>
        cases hee : env.endError with
        | some ee => simp [GET, hu, hne, hce, hte, hee]
        | none => simp [GET, hu, hne, hce, hte, hee]
  · intro env url de hu hne hce hte
    simp [GET, hu, hne, hce, hte]
  · intro env url ee hu hne hce hte hee
    simp [GET, hu, hne, hce, hte, hee]

/-- Error raised by the transaction. -/
def eTxn : DbError := ⟨"", "", "relation missing", true, "serialized", "stringo"⟩

/-- Error raised by the connection close routine. -/
def eEnd : DbError := ⟨"", "", "end failed", true, "serialized", "stringo"⟩

/-- Environment whose transaction fails and whose close also fails. -/
def envTxnFail : Env := ⟨some "postgresql://localhost/db", none, some eTxn, some eEnd⟩

/-- Environment whose transaction succeeds but whose close fails. -/
def envCloseFail : Env := ⟨some "postgresql://localhost/db", none, none, some eEnd⟩

/-- Witness for C4: concrete environments exercising all three parts. -/
theorem claim_C4_witness :
    (GET envTxnFail).2.endCalls = 1 ∧
    (GET envTxnFail).1 = (GET { envTxnFail with endError := none }).1 ∧
    (GET envCloseFail).1 = ⟨500, Body.err "end failed" "UNKNOWN_ERROR" none⟩ :=
  ⟨claim_C4.1 envTxnFail "postgresql://localhost/db" rfl (by decide) rfl,
   claim_C4.2.1 envTxnFail "postgresql://localhost/db" eTxn rfl (by decide) rfl rfl,
   claim_C4.2.2 envCloseFail "postgresql://localhost/db" eEnd rfl (by decide) rfl rfl rfl⟩

/-- Counterexample for C4 as stated: a close failure on the success path
changes the response from the 200 success to a 500 error, so close
failures are not swallowed on every path. -/
theorem claim_C4_cex :
    (GET envCloseFail).1.status = 500 ∧
    (GET { envCloseFail with endError := none }).1.status = 200 := ⟨rfl, rfl⟩

/-- Claim C5: when POSTGRES_URL is unset, GET returns status 500 with
code MISSING_ENV_VAR and performs no connection attempt, no close call
and no database work. -/
theorem claim_C5 (env : Env) (h : env.postgresUrl = none) :
    GET env =
      (⟨500, Body.err missingEnvMessage "MISSING_ENV_VAR" none⟩, ⟨none, 0, false⟩) := by
  simp [GET, h]

/-- Environment with POSTGRES_URL unset. -/
def envMissing : Env := ⟨none, none, none, none⟩

/-- Witness for C5 at the concrete unset environment. -/
theorem claim_C5_witness :
    GET envMissing =
      (⟨500, Body.err missingEnvMessage "MISSING_ENV_VAR" none⟩, ⟨none, 0, false⟩) :=
  claim_C5 envMissing rfl

/-- Claim C6: the SSL decision is the pure substring heuristic on the
connection string: the connection attempt of GET carries exactly the
option computed from the url; any of the five markers forces ssl require,
and with none of them present no explicit SSL is requested. -/
theorem claim_C6 :
    (∀ (env : Env) (url : String), env.postgresUrl = some url → url ≠ "" →
        (GET env).2.connectAttempt = some (sslOption url)) ∧
    (∀ url : String,
        (jsIncludes url "sslmode=require" = true ∨ jsIncludes url "ssl=true" = true ∨
          jsIncludes url "amazonaws.com" = true ∨ jsIncludes url "neon.tech" = true ∨
          jsIncludes url "vercel-storage.com" = true) → sslOption url = some "require") ∧
    (∀ url : String, jsIncludes url "sslmode=require" = false →
        jsIncludes url "ssl=true" = false → jsIncludes url "amazonaws.com" = false →
        jsIncludes url "neon.tech" = false → jsIncludes url "vercel-storage.com" = false →
        sslOption url = none) := by
  refine ⟨?_, ?_, ?_⟩
  · intro env url hu hne
    cases hce : env.connectError with
    | some ce => simp [GET, hu, hne, hce]
    | none =>
        cases hte : env.txnError with
        | some te => simp [GET, hu, hne, hce, hte]
        | none =>
            cases hee : env.endError with
            | some ee => simp [GET, hu, hne, hce, hte, hee]
            | none => simp [GET, hu, hne, hce, hte, hee]
  · intro url h
    rcases h with h | h | h | h | h <;> simp [sslOption, useSSL, h]
  · intro url h1 h2 h3 h4 h5
    simp [sslOption, useSSL, h1, h2, h3, h4, h5]

/-- Witness for C6: a provider url gets ssl require, a plain local url
gets no explicit SSL. -/
theorem claim_C6_witness :
    sslOption "postgresql://app.db.neon.tech/main" = some "require" ∧
    sslOption "postgresql://localhost:5432/main" = none :=
  ⟨claim_C6.2.1 "postgresql://app.db.neon.tech/main"
      (Or.inr (Or.inr (Or.inr (Or.inl (by decide))))),
   claim_C6.2.2 "postgresql://localhost:5432/main" (by decide) (by decide) (by decide)
      (by decide) (by decide)⟩

/-- Claim C7, amended: a transaction error matching none of the three
rules passes the underlying message and code through with the code
defaulting to DATABASE_ERROR when absent; an error escaping the inner
handlers is returned with its own code when present, defaulting to
UNKNOWN_ERROR; and every exit of GET is a structured 200 or 500 response,
never an unhandled fault. -/
theorem claim_C7 :
    (∀ e : DbError, connRefusedMatch e = false → sslMatch e = false → authMatch e = false →
        classifyTxnError e =
          Body.err (errorMessage e) (jsOr (errorCode e) "DATABASE_ERROR") none) ∧
    (∀ (env : Env) (url : String) (ee : DbError), env.postgresUrl = some url → url ≠ "" →
        env.connectError = none → env.txnError = none → env.endError = some ee →
        (GET env).1 =
          ⟨500, Body.err (jsOr ee.message "An unexpected error occurred")
            (jsOr ee.code "UNKNOWN_ERROR") none⟩) ∧
    (∀ env : Env, (GET env).1.status = 200 ∨ (GET env).1.status = 500) := by
  refine ⟨?_, ?_, ?_⟩
  · intro e h1 h2 h3
    simp [classifyTxnError, h1, h2, h3]
  · intro env url ee hu hne hce hte hee
    simp [GET, hu, hne, hce, hte, hee]
  · intro env
    cases hu : env.postgresUrl with
    | none => exact Or.inr (by simp [GET, hu])
    | some url =>
        by_cases hne : url = ""
        · exact Or.inr (by simp [GET, hu, hne])
        · cases hce : env.connectError with
          | some ce => exact Or.inr (by simp [GET, hu, hne, hce])
          | none =>
              cases hte : env.txnError with
              | some te => exact Or.inr (by simp [GET, hu, hne, hce, hte])
              | none =>
                  cases hee : env.endError with
                  | some ee => exact Or.inr (by simp [GET, hu, hne, hce, hte, hee])
                  | none => exact Or.inl (by simp [GET, hu, hne, hce, hte, hee])

/-- An error matching none of the three classification rules. -/
def eOther : DbError := ⟨"XX123", "", "boom", true, "serialized", "stringo"⟩

/-- Witness for C7: a concrete unmatched error passes through with its
own code, and a concrete close failure on the success path is converted
by the outer handler. -/
theorem claim_C7_witness :
    classifyTxnError eOther = Body.err "boom" "XX123" none ∧
    (GET envCloseFail).1 = ⟨500, Body.err "end failed" "UNKNOWN_ERROR" none⟩ :=
  ⟨claim_C7.1 eOther (by decide) (by decide) (by decide),
   claim_C7.2.1 envCloseFail "postgresql://localhost/db" eEnd rfl (by decide) rfl rfl rfl⟩

/-- Error escaping to the outer handler while carrying its own code. -/
def eEndCoded : DbError := ⟨"ECONNRESET", "", "socket hang up", true, "serialized", "stringo"⟩

/-- Environment whose close failure on the success path carries a code. -/
def envEscCoded : Env := ⟨some "postgresql://localhost/db", none, none, some eEndCoded⟩

/-- Counterexample for C7 as stated: an error escaping the inner handlers
with a code of its own is returned with that code, not with
UNKNOWN_ERROR. -/
theorem claim_C7_cex :
    (GET envEscCoded).1.body = Body.err "socket hang up" "ECONNRESET" none ∧
    (GET envEscCoded).1.body ≠ Body.err "socket hang up" "UNKNOWN_ERROR" none :=
  ⟨rfl, by decide⟩

/-- Claim C8: every row the users seed stores is either preexisting or
carries as password the salted cost-10 hash of the fixture plaintext,
which differs from the plaintext and verifies against it; and the other
three seeds apply no per-row transformation: customers and revenue rows
are stored verbatim and invoice rows keep every fixture field, only
adding the generated id. -/
theorem claim_C8 :
    (∀ (salts : Nat → Nat) (us : List UserFixture) (db db2 : Db),
        seedUsers salts us db = Except.ok db2 →
        ∀ r ∈ db2.users, r ∈ db.users ∨ ∃ u ∈ us, ∃ s,
          r = UserRow.mk u.id u.name u.email (bcryptHash u.password 10 s) ∧
          r.password ≠ u.password ∧ bcryptCompare u.password r.password = true) ∧
    (∀ (cs : List CustomerFixture) (db : Db) (r : CustomerRow),
        r ∈ (seedCustomers cs db).customers →
        r ∈ db.customers ∨ ∃ c ∈ cs, r = CustomerRow.mk c.id c.name c.email c.image_url) ∧
    (∀ (vs : List InvoiceFixture) (db : Db) (r : InvoiceRow),
        r ∈ (seedInvoices vs db).invoices →
        r ∈ db.invoices ∨ ∃ v ∈ vs, r.customer_id = v.customer_id ∧ r.amount = v.amount ∧
          r.status = v.status ∧ r.date = v.date) ∧
    (∀ (vs : List RevenueFixture) (db : Db) (r : RevenueRow),
        r ∈ (seedRevenue vs db).revenue →
        r ∈ db.revenue ∨ ∃ v ∈ vs, r = RevenueRow.mk v.month v.revenue) := by
  refine ⟨?_, ?_, ?_, ?_⟩
  · intro salts us db db2 h r hr
    rcases seedUsersGo_mem salts us 0 _ db2 h r hr with hold | ⟨u, hu, s, hs⟩
    · exact Or.inl hold
    · refine Or.inr ⟨u, hu, s, hs, ?_, ?_⟩
      · rw [hs]
        exact bcryptHash_ne u.password 10 s
      · rw [hs]
        exact bcryptCompare_hash u.password 10 s
  · intro cs db r hr
    exact seedCustomersGo_mem cs { db with uuidExt := true, customersTable := true } r hr
  · intro vs db r hr
    exact seedInvoicesGo_mem vs { db with uuidExt := true, invoicesTable := true } r hr
  · intro vs db r hr
    exact seedRevenueGo_mem vs { db with revenueTable := true } r hr

/-- One concrete fixture user. -/
def usDemo : List UserFixture := [⟨"u1", "Alice", "alice@example.com", "secret"⟩]

/-- Database state after seeding the concrete fixture user into the empty
database. -/
def dbUsersSeeded : Db :=
  { emptyDb with
      uuidExt := true
      usersTable := true
      users := [⟨"u1", "Alice", "alice@example.com", bcryptHash "secret" 10 0⟩] }

/-- The stored row of the concrete fixture user. -/
def rowAlice : UserRow := ⟨"u1", "Alice", "alice@example.com", bcryptHash "secret" 10 0⟩

/-- Witness for C8: the concrete stored row is the cost-10 hash of the
fixture password, differs from it and verifies against it. -/
theorem claim_C8_witness :
    rowAlice ∈ emptyDb.users ∨ ∃ u ∈ usDemo, ∃ s,
      rowAlice = UserRow.mk u.id u.name u.email (bcryptHash u.password 10 s) ∧
      rowAlice.password ≠ u.password ∧
      bcryptCompare u.password rowAlice.password = true :=
  claim_C8.1 saltsZero usDemo emptyDb dbUsersSeeded rfl rowAlice (by decide)

/-- Claim C9: the four seed operations run inside one transaction; a
failure of the users seed fails the whole transaction body, a failing
transaction leaves the database state unchanged (rollback, no partial
seeding), and a committed transaction state is exactly the result of all
four seed operations. -/
theorem claim_C9 :
    (∀ (salts : Nat → Nat) (fx : Fixtures) (db : Db) (e : SqlError),
        seedAll salts fx db = Except.error e →
        seedTransaction salts fx db = (db, some e)) ∧
    (∀ (salts : Nat → Nat) (fx : Fixtures) (db : Db) (e : SqlError),
        seedUsers salts fx.users db = Except.error e →
        seedAll salts fx db = Except.error e) ∧
    (∀ (salts : Nat → Nat) (fx : Fixtures) (db db2 : Db),
        seedTransaction salts fx db = (db2, none) →
        seedAll salts fx db = Except.ok db2) := by
  refine ⟨?_, ?_, ?_⟩
  · intro salts fx db e h
    simp [seedTransaction, beginTxn, h]
  · intro salts fx db e h
    simp [seedAll, h, Except.bind]
  · intro salts fx db db2 h
    unfold seedTransaction beginTxn at h
    cases hs : seedAll salts fx db with
    | ok d =>
        rw [hs] at h
        simp at h
        rw [h]
    | error e =>
        rw [hs] at h
        simp at h

/-- Fixture set with two users sharing one email: the second insert
violates the email uniqueness constraint, which is not the conflict
target. -/
def fxDup : Fixtures :=
  ⟨[⟨"u1", "A", "dup@example.com", "p"⟩, ⟨"u2", "B", "dup@example.com", "q"⟩], [], [], []⟩

/-- Witness for C9: at the concrete failing fixture set the transaction
reports the uniqueness violation and leaves the database unchanged. -/
theorem claim_C9_witness :
    seedTransaction saltsZero fxDup emptyDb =
      (emptyDb, some (SqlError.uniqueViolation "users" "email")) :=
  claim_C9.1 saltsZero fxDup emptyDb (SqlError.uniqueViolation "users" "email") rfl

/-- Claim C10: an empty POSTGRES_URL is treated like an unset one, since
the source checks falsiness: GET returns the MISSING_ENV_VAR error and
attempts no connection. -/
theorem claim_C10 (env : Env) (h : env.postgresUrl = some "") :
    GET env =
      (⟨500, Body.err missingEnvMessage "MISSING_ENV_VAR" none⟩, ⟨none, 0, false⟩) := by
  simp [GET, h]

/-- Environment with POSTGRES_URL set to the empty string. -/
def envEmptyUrl : Env := ⟨some "", none, none, none⟩

/-- Witness for C10 at the concrete empty-string environment. -/
theorem claim_C10_witness :
    GET envEmptyUrl =
      (⟨500, Body.err missingEnvMessage "MISSING_ENV_VAR" none⟩, ⟨none, 0, false⟩) :=
  claim_C10 envEmptyUrl rfl

end Seed
